import Mathlib

/-!
# File system calls of oslight (kern/syscall/file_syscalls.c)

A shallow embedding of the five system calls sys_open, sys_read, sys_write,
sys_close and sys_meld, over an explicit kernel state, followed by the
properties stated about them.

The C functions mutate the current process's file table, the open-file
objects on the kernel heap and the storage behind the vnodes.  Here every
function takes the kernel state and returns the new one.  The routines the
system calls rely on (filetable_*, openfile_*, copyinstr, VOP_*, lock_*) live
in other files of the kernel; they are modelled from their contracts and each
such definition says so.
-/

namespace OSLight

/-! ## Constants of the kernel headers -/

/-- Modelled from the spec: kern/errno.h is not among the sources; the error
taxonomy names these codes and the numbers are the ones of the kernel header.
Only that they are non-zero and pairwise different matters below. -/
def EFAULT : Int := 6
/-- Modelled from the spec: string too long for the copy-in bound (kern/errno.h). -/
def ENAMETOOLONG : Int := 7
/-- Modelled from the spec: invalid-argument (kern/errno.h). -/
def EINVAL : Int := 8
/-- Modelled from the spec: permission-denied (kern/errno.h). -/
def EACCES : Int := 10
/-- Modelled from the spec: not-found, no such file (kern/errno.h). -/
def ENOENT : Int := 19
/-- Modelled from the spec: already-exists (kern/errno.h). -/
def EEXIST : Int := 22
/-- Modelled from the spec: resource-exhausted, too many open files (kern/errno.h). -/
def EMFILE : Int := 28
/-- Modelled from the spec: bad-descriptor (kern/errno.h). -/
def EBADF : Int := 30
/-- Modelled from the spec: underlying input/output error (kern/errno.h). -/
def EIO : Int := 32

/-- Modelled from the spec: kern/fcntl.h is not among the sources; the flag
bits of open, with the values of the kernel header. -/
def O_RDONLY : Int := 0
/-- Modelled from the spec: write-only access mode (kern/fcntl.h). -/
def O_WRONLY : Int := 1
/-- Modelled from the spec: read-write access mode (kern/fcntl.h). -/
def O_RDWR : Int := 2
/-- Modelled from the spec: mask of the access-mode field (kern/fcntl.h). -/
def O_ACCMODE : Int := 3
/-- Modelled from the spec: create the file if it does not exist (kern/fcntl.h). -/
def O_CREAT : Int := 4
/-- Modelled from the spec: fail if the file already exists (kern/fcntl.h). -/
def O_EXCL : Int := 8
/-- Modelled from the spec: truncate the file on open (kern/fcntl.h). -/
def O_TRUNC : Int := 16
/-- Modelled from the spec: writes go to the end of the file (kern/fcntl.h). -/
def O_APPEND : Int := 32
/-- Modelled from the spec: no controlling terminal (kern/fcntl.h). -/
def O_NOCTTY : Int := 64

/-- Modelled from the spec: bound of the path copy-in (kern/limits.h). -/
def PATH_MAX : Nat := 1024

/-- Conversion to the 32-bit C type int (two's complement wrap-around). -/
def toInt32 (x : Int) : Int := (x + 2147483648) % 4294967296 - 2147483648

/-! ## Data model -/

/-- One byte of file contents or of a buffer. -/
abbrev Byte := Char

/-- The storage object behind a vnode: its name, its contents, and the error
(0 for none) with which the device answers every transfer. -/
structure vnode where
  vn_name : String
  vn_data : List Byte
  vn_ioerr : Int
deriving DecidableEq, Repr

/-- The struct openfile of openfile.h: of_vnode is the index of the vnode in
the storage, of_offsetlock is true while the offset lock is held. -/
structure openfile where
  of_vnode : Nat
  of_accmode : Int
  of_offset : Nat
  of_refcount : Nat
  of_offsetlock : Bool
deriving DecidableEq, Repr

/-- Calls to collaborators, recorded in the order they happen (newest first). -/
inductive Event where
  | copyinstr (ok : Bool)
  | openfile_open (path : String) (flags : Int)
  | vop_read (vn off len : Nat)
  | vop_write (vn off len : Nat)
  | openfile_decref (file : Nat)
deriving DecidableEq, Repr

/-- The kernel state the file system calls act on.  A pointer to an open-file
object is its index in files; ft is curproc->p_filetable, one entry per
descriptor number, its length being the maximum number of descriptors;
ft_gets and ft_puts count the filetable_get and filetable_put calls; retval is
the cell the int *retval argument of a system call points to. -/
structure Kernel where
  vnodes : List vnode
  files : List openfile
  ft : List (Option Nat)
  ft_gets : Nat
  ft_puts : Nat
  retval : Int
  log : List Event
deriving DecidableEq, Repr

/-- How a system call ends: it returns a code with the state it leaves, a
KASSERT fails (the kernel panics), it dereferences a pointer that designates
no object, or its loop has not ended within the iterations granted to it
(which sys_meld never runs into, see sys_meld_finishes). -/
inductive Outcome where
  | ret (code : Int) (k : Kernel)
  | panic
  | badptr
  | unfinished
deriving DecidableEq, Repr

/-- A user-space address of a string: the string found there, or none when
the address is not mapped. -/
abbrev userptr := Option String

/-- The struct uio of uio.h, as far as a transfer uses it: the contents of the
memory region of the iovec, the file offset and the bytes still to transfer. -/
structure uio where
  uio_buf : List Byte
  uio_offset : Nat
  uio_resid : Nat
deriving DecidableEq, Repr

/-! ## Collaborators -/

/-- Modelled from the spec: copyinstr (copyinout.h), the path copy-in, a
bounded-length string transfer from user memory that fails on fault or
overflow. -/
def copyinstr (usersrc : userptr) (len : Nat) (k : Kernel) : Except Int String × Kernel :=
  match usersrc with
  | none => (.error EFAULT, { k with log := Event.copyinstr false :: k.log })
  | some s =>
    if s.length + 1 ≤ len then (.ok s, { k with log := Event.copyinstr true :: k.log })
    else (.error ENAMETOOLONG, { k with log := Event.copyinstr false :: k.log })

/-- Modelled from the spec: name resolution of the storage collaborator, the
index of the first vnode with the given name. -/
def vfs_lookup : List vnode → String → Option Nat
  | [], _ => none
  | v :: vs, path => if v.vn_name = path then some 0 else (vfs_lookup vs path).map (· + 1)

/-- Whether the flag bit is set in flags. -/
def flagSet (flags bit : Int) : Bool := Int.land flags bit != 0

/-- Modelled from the spec: the storage open behind openfile_open.  An
existing file opened with create and exclusive fails with file-exists, a
missing file is created when create is given and fails with not-found
otherwise; truncate empties a file opened for writing. -/
def vfs_open (path : String) (openflags : Int) (vs : List vnode) : Except Int (Nat × List vnode) :=
  match vfs_lookup vs path with
  | some v =>
    if flagSet openflags O_CREAT && flagSet openflags O_EXCL then .error EEXIST
    else if flagSet openflags O_TRUNC && (Int.land openflags O_ACCMODE != O_RDONLY) then
      match vs[v]? with
      | some n => .ok (v, vs.set v { n with vn_data := [] })
      | none => .ok (v, vs)
    else .ok (v, vs)
  | none =>
    if flagSet openflags O_CREAT then
      .ok (vs.length, vs ++ [{ vn_name := path, vn_data := [], vn_ioerr := 0 }])
    else .error ENOENT

/-- Modelled from the spec: openfile_open (openfile.h), section 4.1 Open.  An
access-mode value that matches no recognised mode fails with
invalid-argument before any storage access; otherwise the storage
collaborator opens the file and either its error is returned unchanged or a
new object with reference count 1 and offset 0 (end of file with append) is
allocated. -/
def openfile_open (path : String) (openflags : Int) (_mode : Nat) (k : Kernel) :
    Except Int Nat × Kernel :=
  let k1 := { k with log := Event.openfile_open path openflags :: k.log }
  let accmode := Int.land openflags O_ACCMODE
  if accmode != O_RDONLY && accmode != O_WRONLY && accmode != O_RDWR then (.error EINVAL, k1)
  else
    match vfs_open path openflags k1.vnodes with
    | .error e => (.error e, k1)
    | .ok (vn, vs) =>
      let size := match vs[vn]? with
        | some n => n.vn_data.length
        | none => 0
      let file : openfile :=
        { of_vnode := vn, of_accmode := accmode,
          of_offset := if flagSet openflags O_APPEND then size else 0,
          of_refcount := 1, of_offsetlock := false }
      (.ok k1.files.length, { k1 with vnodes := vs, files := k1.files ++ [file] })

/-- Modelled from the spec: openfile_decref (openfile.h), section 4.1 Decref.
The reference count goes down by one; at zero references the call is a
contract violation and fatal (none). -/
def openfile_decref (file : Nat) (k : Kernel) : Option Kernel :=
  match k.files[file]? with
  | none => none
  | some o =>
    if o.of_refcount = 0 then none
    else some { k with files := k.files.set file { o with of_refcount := o.of_refcount - 1 },
                       log := Event.openfile_decref file :: k.log }

/-- Modelled from the spec: filetable_okfd (filetable.h), the range check on
a descriptor number that sys_close and sys_meld assert ("Validates the
descriptor is in range", section 4.5). -/
def filetable_okfd (ft : List (Option Nat)) (fd : Int) : Bool :=
  decide (0 ≤ fd) && decide (fd < ft.length)

/-- Modelled from the spec: Is-valid of section 4.2, the range and occupancy
check on a descriptor number. -/
def filetable_isvalid (ft : List (Option Nat)) (fd : Int) : Bool :=
  filetable_okfd ft fd && (ft[fd.toNat]?).join.isSome

/-- Modelled from the spec: the search of filetable_place (filetable.h),
section 4.2 Place: the object goes into the lowest-numbered empty slot; none
when no slot is free. -/
def placeLowest : List (Option Nat) → Nat → Option (Nat × List (Option Nat))
  | [], _ => none
  | none :: rest, file => some (0, some file :: rest)
  | some g :: rest, file =>
    (placeLowest rest file).map (fun r => (r.1 + 1, some g :: r.2))

/-- Modelled from the spec: filetable_place (filetable.h), section 4.2 Place:
the descriptor number of the slot taken, or too-many-open-files with the
table as it was. -/
def filetable_place (ft : List (Option Nat)) (file : Nat) : Except Int (Nat × List (Option Nat)) :=
  match placeLowest ft file with
  | some r => .ok r
  | none => .error EMFILE

/-- Modelled from the spec: filetable_get (filetable.h), section 4.2 Get:
bad-descriptor when the number is out of range or the slot is empty,
otherwise the object of the slot, and one more pin to be matched by a put. -/
def filetable_get (fd : Int) (k : Kernel) : Except Int Nat × Kernel :=
  if filetable_okfd k.ft fd then
    match (k.ft[fd.toNat]?).join with
    | some file => (.ok file, { k with ft_gets := k.ft_gets + 1 })
    | none => (.error EBADF, k)
  else (.error EBADF, k)

/-- Modelled from the spec: filetable_put (filetable.h), section 4.2 Put: the
end of a get/put bracket, which leaves the reference count alone. -/
def filetable_put (_fd : Int) (_file : Nat) (k : Kernel) : Kernel :=
  { k with ft_puts := k.ft_puts + 1 }

/-- Modelled from the spec: filetable_placeat (filetable.h), section 4.2
Place-at: the slot takes the new content (none vacates it) and the previous
content is handed back, reference counts untouched. -/
def filetable_placeat (ft : List (Option Nat)) (newfile : Option Nat) (fd : Int) :
    Option Nat × List (Option Nat) :=
  ((ft[fd.toNat]?).join, ft.set fd.toNat newfile)

/-- Apply a change to the open-file object a pointer designates. -/
def updFile (file : Nat) (g : openfile → openfile) (k : Kernel) : Kernel :=
  match k.files[file]? with
  | some o => { k with files := k.files.set file (g o) }
  | none => k

/-- Modelled from the spec: lock_acquire (synch.h) on the offset lock of an
object.  The call returns once the caller holds the lock; the wait has no
counterpart in a sequential model, the flag records that the lock is held. -/
def lock_acquire (file : Nat) (k : Kernel) : Kernel :=
  updFile file (fun o => { o with of_offsetlock := true }) k

/-- Modelled from the spec: lock_release (synch.h) on the offset lock of an
object. -/
def lock_release (file : Nat) (k : Kernel) : Kernel :=
  updFile file (fun o => { o with of_offsetlock := false }) k

/-- Modelled from the spec: uio_kinit (uio.h), which sets up a transfer of
len bytes between the memory region and the file position pos. -/
def uio_kinit (region : List Byte) (len pos : Nat) : uio :=
  { uio_buf := region, uio_offset := pos, uio_resid := len }

/-- Modelled from the spec: VOP_READ (vnode.h), the storage read.  Up to
uio_resid bytes from uio_offset on are copied to the front of the region; a
short transfer at end of file is no error; a device error leaves everything
as it was. -/
def VOP_READ (vn : Nat) (u : uio) (k : Kernel) : Except Int uio × Kernel :=
  match k.vnodes[vn]? with
  | none => (.error EIO, k)
  | some n =>
    if n.vn_ioerr ≠ 0 then (.error n.vn_ioerr, k)
    else
      let got := (n.vn_data.drop u.uio_offset).take u.uio_resid
      (.ok { uio_buf := got ++ u.uio_buf.drop got.length,
             uio_offset := u.uio_offset + got.length,
             uio_resid := u.uio_resid - got.length },
       { k with log := Event.vop_read vn u.uio_offset got.length :: k.log })

/-- The contents of a file after data has been written at offset off (a gap
beyond the old end reads as zero bytes). -/
def writeAt (old : List Byte) (off : Nat) (data : List Byte) : List Byte :=
  old.take off ++ List.replicate (off - old.length) (Char.ofNat 0) ++ data
    ++ old.drop (off + data.length)

/-- Modelled from the spec: VOP_WRITE (vnode.h), the storage write.  The first
uio_resid bytes of the region are written at uio_offset; a device error
leaves everything as it was. -/
def VOP_WRITE (vn : Nat) (u : uio) (k : Kernel) : Except Int uio × Kernel :=
  match k.vnodes[vn]? with
  | none => (.error EIO, k)
  | some n =>
    if n.vn_ioerr ≠ 0 then (.error n.vn_ioerr, k)
    else
      let data := u.uio_buf.take u.uio_resid
      (.ok { uio_buf := u.uio_buf,
             uio_offset := u.uio_offset + data.length,
             uio_resid := u.uio_resid - data.length },
       { k with vnodes := k.vnodes.set vn { n with vn_data := writeAt n.vn_data u.uio_offset data },
                log := Event.vop_write vn u.uio_offset data.length :: k.log })

/-- Modelled from the spec: VOP_STAT (vnode.h), the stat-like query, of which
only st_size is used: the length of the file. -/
def VOP_STAT (vn : Nat) (k : Kernel) : Nat :=
  match k.vnodes[vn]? with
  | some n => n.vn_data.length
  | none => 0

/-! ## The system calls (kern/syscall/file_syscalls.c) -/

/-- The constant allflags of sys_open (line 30). -/
def allflags : Int :=
  Int.lor (Int.lor (Int.lor (Int.lor (Int.lor O_ACCMODE O_CREAT) O_EXCL) O_TRUNC) O_APPEND) O_NOCTTY

/-- The function sys_open (lines 27-69).  The flags are rejected only when
they equal allflags; a failed copy-in and a failed openfile_open both return
EFAULT; a failed placement returns EMFILE and touches the new object no
more; on success filetable_place has stored the descriptor through retval. -/
def sys_open (upath : userptr) (flags : Int) (mode : Nat) (k : Kernel) : Outcome :=
  if flags = allflags then .ret EINVAL k
  else
    match copyinstr upath PATH_MAX k with
    | (.error _, k1) => .ret EFAULT k1
    | (.ok kpath, k1) =>
      match openfile_open kpath flags mode k1 with
      | (.error _, k2) => .ret EFAULT k2
      | (.ok file, k2) =>
        match filetable_place k2.ft file with
        | .error _ => .ret EMFILE k2
        | .ok (fd, ft) => .ret 0 { k2 with ft := ft, retval := fd }

/-- The function sys_read (lines 74-128).  The assignment retval = 0 of line
88 changes the local pointer, so the cell of the caller is never written.
The write-only exit releases the lock and returns without filetable_put; the
exit on a failed VOP_READ returns with the lock held and without
filetable_put.  The destination buffer starts with unknown contents, taken as
zero bytes. -/
def sys_read (fd : Int) (_buf : Nat) (size : Nat) (k : Kernel) : Outcome :=
  match filetable_get fd k with
  | (.error result, k1) => .ret result k1
  | (.ok openFile, k1) =>
    let k2 := lock_acquire openFile k1
    match k2.files[openFile]? with
    | none => .badptr
    | some o =>
      if o.of_accmode = O_WRONLY then .ret EACCES (lock_release openFile k2)
      else
        let u := uio_kinit (List.replicate size (Char.ofNat 0)) size o.of_offset
        match VOP_READ o.of_vnode u k2 with
        | (.error result, k3) => .ret result k3
        | (.ok u1, k3) =>
          let k4 := updFile openFile (fun f => { f with of_offset := u1.uio_offset }) k3
          let k5 := lock_release openFile k4
          let k6 := filetable_put fd openFile k5
          .ret 0 k6

/-- The function sys_write (lines 133-181), the mirror of sys_read: buf gives
the bytes found at the source address, of which the first size are written. -/
def sys_write (fd : Int) (buf : Nat → Byte) (size : Nat) (k : Kernel) : Outcome :=
  match filetable_get fd k with
  | (.error result, k1) => .ret result k1
  | (.ok openFile, k1) =>
    let k2 := lock_acquire openFile k1
    match k2.files[openFile]? with
    | none => .badptr
    | some o =>
      if o.of_accmode = O_RDONLY then .ret EACCES (lock_release openFile k2)
      else
        let u := uio_kinit ((List.range size).map buf) size o.of_offset
        match VOP_WRITE o.of_vnode u k2 with
        | (.error result, k3) => .ret result k3
        | (.ok u1, k3) =>
          let k4 := updFile openFile (fun f => { f with of_offset := u1.uio_offset }) k3
          let k5 := lock_release openFile k4
          let k6 := filetable_put fd openFile k5
          .ret 0 k6

/-- The function sys_close (lines 186-206): the descriptor number is checked
by a KASSERT, the slot is swapped with NULL, an empty slot gives ENOENT and a
stored object is decref'ed. -/
def sys_close (fd : Int) (k : Kernel) : Outcome :=
  if filetable_okfd k.ft fd then
    match filetable_placeat k.ft none fd with
    | (none, ft) => .ret ENOENT { k with ft := ft }
    | (some openFile, ft) =>
      match openfile_decref openFile { k with ft := ft } with
      | some k1 => .ret 0 k1
      | none => .panic
  else .panic

/-- One read of the copy loop of sys_meld (lines 298-308 for source 1, lines
312-320 for source 2): lock, uio_kinit for 4 bytes at the object's offset,
VOP_READ, return of the error with the lock still held, store of the new
offset, unlock.  The result carries the buffer as the read left it. -/
def meld_read (file : Nat) (buffer : List Byte) (k : Kernel) : Except Outcome (List Byte × Kernel) :=
  let k1 := lock_acquire file k
  match k1.files[file]? with
  | none => .error .badptr
  | some o =>
    let u := uio_kinit buffer 4 o.of_offset
    match VOP_READ o.of_vnode u k1 with
    | (.error result, k2) => .error (.ret result k2)
    | (.ok u1, k2) =>
      let k3 := updFile file (fun f => { f with of_offset := u1.uio_offset }) k2
      .ok (u1.uio_buf, lock_release file k3)

/-- One write of the copy loop of sys_meld (lines 323-332 for buffer1, lines
335-343 for buffer2): lock, uio_kinit for 4 bytes at the object's offset,
VOP_WRITE, return of the error with the lock still held, store of the new
offset, unlock. -/
def meld_write (file : Nat) (buffer : List Byte) (k : Kernel) : Except Outcome Kernel :=
  let k1 := lock_acquire file k
  match k1.files[file]? with
  | none => .error .badptr
  | some o =>
    let u := uio_kinit buffer 4 o.of_offset
    match VOP_WRITE o.of_vnode u k1 with
    | (.error result, k2) => .error (.ret result k2)
    | (.ok u1, k2) =>
      let k3 := updFile file (fun f => { f with of_offset := u1.uio_offset }) k2
      .ok (lock_release file k3)

/-- The copy loop of sys_meld (lines 295-346): while counter < size/2, read a
chunk of each source, write both chunks to the destination, add 4 to the
counter.  The first argument bounds the number of iterations. -/
def meld_loop (size : Int) (openFile1 openFile2 openFile3 : Nat) :
    Nat → Int → List Byte → List Byte → Kernel → Except Outcome Kernel
  | 0, counter, _, _, k =>
    if counter < Int.tdiv size 2 then .error .unfinished else .ok k
  | fuel + 1, counter, buffer1, buffer2, k =>
    if counter < Int.tdiv size 2 then
      match meld_read openFile1 buffer1 k with
      | .error out => .error out
      | .ok (buffer1, ka) =>
        match meld_read openFile2 buffer2 ka with
        | .error out => .error out
        | .ok (buffer2, kb) =>
          match meld_write openFile3 buffer1 kb with
          | .error out => .error out
          | .ok kc =>
            match meld_write openFile3 buffer2 kc with
            | .error out => .error out
            | .ok kd =>
              meld_loop size openFile1 openFile2 openFile3 fuel (toInt32 (counter + 4))
                buffer1 buffer2 kd
    else .ok k

/-- The end of sys_meld (lines 348-377): the destination offset is stored
through retval, the descriptor number fd is asserted, the slot fd is swapped
with NULL three times, the three previous contents landing in openFile1,
openFile2 and openFile3, each of which gives ENOENT when it is NULL, and the
three are decref'ed. -/
def meld_finish (fd : Int) (openFile3 : Nat) (k : Kernel) : Outcome :=
  match k.files[openFile3]? with
  | none => .badptr
  | some o3 =>
    let k1 := { k with retval := toInt32 o3.of_offset }
    if filetable_okfd k1.ft fd then
      match filetable_placeat k1.ft none fd with
      | (openFile1, ft1) =>
        match filetable_placeat ft1 none fd with
        | (openFile2, ft2) =>
          match filetable_placeat ft2 none fd with
          | (openFile3, ft3) =>
            let k2 := { k1 with ft := ft3 }
            match openFile1 with
            | none => .ret ENOENT k2
            | some f1 =>
              match openFile2 with
              | none => .ret ENOENT k2
              | some f2 =>
                match openFile3 with
                | none => .ret ENOENT k2
                | some f3 =>
                  match openfile_decref f1 k2 with
                  | none => .panic
                  | some k3 =>
                    match openfile_decref f2 k3 with
                    | none => .panic
                    | some k4 =>
                      match openfile_decref f3 k4 with
                      | none => .panic
                      | some k5 => .ret 0 k5
    else .panic

/-- The part of sys_meld after the three placements (lines 274-377): the two
4-byte buffers (unknown contents, taken as zero bytes), the two stat
queries whose sizes are added into the int size, the copy loop and the end.
The loop is granted as many rounds as the two files have bytes, which is more
than it makes: the counter goes up by 4 a round until it reaches size / 2. -/
def meld_copy (fd : Int) (openFile1 openFile2 openFile3 : Nat) (k : Kernel) : Outcome :=
  let buffer1 := List.replicate 4 (Char.ofNat 0)
  let buffer2 := List.replicate 4 (Char.ofNat 0)
  match k.files[openFile1]?, k.files[openFile2]? with
  | some o1, some o2 =>
    let size := toInt32 (VOP_STAT o1.of_vnode k)
    let size := toInt32 (size + VOP_STAT o2.of_vnode k)
    match meld_loop size openFile1 openFile2 openFile3
        (VOP_STAT o1.of_vnode k + VOP_STAT o2.of_vnode k) 0 buffer1 buffer2 k with
    | .error out => out
    | .ok k1 => meld_finish fd openFile3 k1
  | _, _ => .badptr

/-- The function sys_meld (lines 210-378).  The three paths are copied in,
the sources are opened O_RDWR (ENOENT on failure), the destination is opened
O_WRONLY | O_CREAT | O_EXCL (EEXIST on failure), the three objects are placed
into the table, fd being the descriptor of the last placement, and the copy
follows.  Line 348 stores through retval, which the parameter list of line
211 does not declare; it is taken as the result cell of the call. -/
def sys_meld (pn1 pn2 pn3 : userptr) (k : Kernel) : Outcome :=
  match copyinstr pn1 PATH_MAX k with
  | (.error result, k1) => .ret result k1
  | (.ok kpath_pn1, k1) =>
    match copyinstr pn2 PATH_MAX k1 with
    | (.error result, k2) => .ret result k2
    | (.ok kpath_pn2, k2) =>
      match copyinstr pn3 PATH_MAX k2 with
      | (.error result, k3) => .ret result k3
      | (.ok kpath_pn3, k3) =>
        match openfile_open kpath_pn1 O_RDWR 436 k3 with
        | (.error _, k4) => .ret ENOENT k4
        | (.ok openFile1, k4) =>
          match openfile_open kpath_pn2 O_RDWR 436 k4 with
          | (.error _, k5) => .ret ENOENT k5
          | (.ok openFile2, k5) =>
            match openfile_open kpath_pn3 (Int.lor (Int.lor O_WRONLY O_CREAT) O_EXCL) 436 k5 with
            | (.error _, k6) => .ret EEXIST k6
            | (.ok openFile3, k6) =>
              match filetable_place k6.ft openFile1 with
              | .error result => .ret result k6
              | .ok (_, ft1) =>
                match filetable_place ft1 openFile2 with
                | .error result => .ret result { k6 with ft := ft1 }
                | .ok (_, ft2) =>
                  match filetable_place ft2 openFile3 with
                  | .error result => .ret result { k6 with ft := ft2 }
                  | .ok (tempVal, ft3) =>
                    meld_copy tempVal openFile1 openFile2 openFile3 { k6 with ft := ft3 }

/-! ## The interleaving the spec describes, and example states -/

/-- Chunk number i (from 0) of a file: its bytes 4i to 4i+3. -/
def chunk (data : List Byte) (i : Nat) : List Byte := (data.drop (4 * i)).take 4

/-- The destination the spec describes for meld after n rounds: chunk 1 of
source 1, chunk 1 of source 2, chunk 2 of source 1, chunk 2 of source 2, and
so on. -/
def meldChunks (src1 src2 : List Byte) : Nat → List Byte
  | 0 => []
  | n + 1 => meldChunks src1 src2 n ++ chunk src1 n ++ chunk src2 n

/-- The number of transfers of the log: its VOP_READ and VOP_WRITE calls. -/
def transfers : List Event → Nat
  | [] => 0
  | Event.vop_read _ _ _ :: rest => transfers rest + 1
  | Event.vop_write _ _ _ :: rest => transfers rest + 1
  | _ :: rest => transfers rest

/-- A process with three descriptors open: 0 read-only and 1 write-only on
the 8-byte file a, 2 read-write on a device that fails every transfer. -/
def exampleKernel : Kernel :=
  { vnodes := [⟨"a", "AAAABBBB".toList, 0⟩, ⟨"tty", [], EIO⟩],
    files := [⟨0, O_RDONLY, 0, 1, false⟩, ⟨0, O_WRONLY, 0, 1, false⟩, ⟨1, O_RDWR, 0, 1, false⟩],
    ft := [some 0, some 1, some 2, none], ft_gets := 0, ft_puts := 0, retval := 0, log := [] }

/-- A process whose table of one slot is full. -/
def fullKernel : Kernel :=
  { vnodes := [⟨"a", "AAAABBBB".toList, 0⟩],
    files := [⟨0, O_RDONLY, 0, 1, false⟩],
    ft := [some 0], ft_gets := 0, ft_puts := 0, retval := 0, log := [] }

/-- The meld scenario of the spec: source a holds AAAABBBB, source b holds
11112222, no file c exists, and the table has four free slots. -/
def meldKernel : Kernel :=
  { vnodes := [⟨"a", "AAAABBBB".toList, 0⟩, ⟨"b", "11112222".toList, 0⟩],
    files := [], ft := [none, none, none, none], ft_gets := 0, ft_puts := 0, retval := 0,
    log := [] }

/-- The state of sys_meld between the placements and the end of the copy
loop, seen from the state k0 at the call: the destination p3 is the one new
vnode, with contents D; the three new objects are the two sources, read up
to a and b, and the destination, written up to d; ft is the table, L the log
and r the result cell. -/
def meldState (k0 : Kernel) (p3 : String) (v1 v2 : Nat) (ft : List (Option Nat))
    (a b d : Nat) (D : List Byte) (L : List Event) (r : Int) : Kernel :=
  { vnodes := k0.vnodes ++ [⟨p3, D, 0⟩],
    files := k0.files ++ [⟨v1, O_RDWR, a, 1, false⟩, ⟨v2, O_RDWR, b, 1, false⟩,
      ⟨k0.vnodes.length, O_WRONLY, d, 1, false⟩],
    ft := ft, ft_gets := k0.ft_gets, ft_puts := k0.ft_puts, retval := r, log := L }

/-- The number of rounds of the copy loop for sources of s1 and s2 bytes: the
loop runs while counter < size / 2, where size is the int sum of the two
sizes and counter goes up by 4. -/
def meldRounds (s1 s2 : Nat) : Nat :=
  ((Int.tdiv (toInt32 (toInt32 s1 + s2)) 2).toNat + 3) / 4

/-- The result cell after a call, given what it held before: a call that
does not return leaves it as it was. -/
def resultCell (out : Outcome) (before : Int) : Int :=
  match out with
  | .ret _ k => k.retval
  | _ => before

/-- The meld scenario with sources of 6 bytes each. -/
def meldKernel6 : Kernel :=
  { vnodes := [⟨"a", "AAAABB".toList, 0⟩, ⟨"b", "111122".toList, 0⟩],
    files := [], ft := [none, none, none, none], ft_gets := 0, ft_puts := 0, retval := 0,
    log := [] }

/-- Sources of 1073741824 and 1073741823 bytes, 2147483647 bytes together, no
file c, four free slots. -/
def largeKernel2 : Kernel :=
  { vnodes := [⟨"a", List.replicate 1073741824 'A', 0⟩, ⟨"b", List.replicate 1073741823 '1', 0⟩],
    files := [], ft := [none, none, none, none], ft_gets := 0, ft_puts := 0, retval := 0,
    log := [] }

/-! ## Auxiliary facts -/

/-- Storing in a list the element it already holds changes nothing. -/
theorem set_same {α : Type} (l : List α) (i : Nat) (a : α) (h : l[i]? = some a) :
    l.set i a = l := by
  induction l generalizing i with
  | nil => simp
  | cons x xs ih =>
    cases i with
    | zero => simp at h; simp [h]
    | succ n => simp at h; simp [ih n h]

/-- A descriptor number that passes the range check indexes the table. -/
theorem okfd_lt {ft : List (Option Nat)} {fd : Int} (h : filetable_okfd ft fd = true) :
    fd.toNat < ft.length := by
  simp [filetable_okfd] at h
  omega

/-- An index with an element is within the list. -/
theorem lt_of_getElem?_some {α : Type} {l : List α} {i : Nat} {a : α} (h : l[i]? = some a) :
    i < l.length := by
  rcases Nat.lt_or_ge i l.length with h1 | h1
  · exact h1
  · rw [List.getElem?_eq_none h1] at h; cases h

/-- A change of an open-file object leaves the result cell alone. -/
theorem updFile_retval (file : Nat) (g : openfile → openfile) (k : Kernel) :
    (updFile file g k).retval = k.retval := by
  unfold updFile; split <;> rfl

/-- The call filetable_get leaves the result cell alone. -/
theorem filetable_get_retval (fd : Int) (k : Kernel) :
    (filetable_get fd k).2.retval = k.retval := by
  unfold filetable_get; split
  · split <;> rfl
  · rfl

/-- The call VOP_READ leaves the result cell alone. -/
theorem VOP_READ_retval (vn : Nat) (u : uio) (k : Kernel) :
    (VOP_READ vn u k).2.retval = k.retval := by
  unfold VOP_READ; split
  · rfl
  · split <;> rfl

/-- The call VOP_WRITE leaves the result cell alone. -/
theorem VOP_WRITE_retval (vn : Nat) (u : uio) (k : Kernel) :
    (VOP_WRITE vn u k).2.retval = k.retval := by
  unfold VOP_WRITE; split
  · rfl
  · split <;> rfl

/-! ## Auxiliary facts on the copy loop of meld -/

/-- The element right after a list l in l ++ x :: t. -/
theorem getElem?_append_len {α : Type} (l : List α) (x : α) (t : List α) :
    (l ++ x :: t)[l.length]? = some x := by
  induction l with
  | nil => simp
  | cons y ys ih => simpa using ih

/-- The second element after a list l in l ++ x :: y :: t. -/
theorem getElem?_append_len1 {α : Type} (l : List α) (x y : α) (t : List α) :
    (l ++ x :: y :: t)[l.length + 1]? = some y := by
  induction l with
  | nil => simp
  | cons z zs ih => simpa using ih

/-- The third element after a list l in l ++ x :: y :: z :: t. -/
theorem getElem?_append_len2 {α : Type} (l : List α) (x y z : α) (t : List α) :
    (l ++ x :: y :: z :: t)[l.length + 2]? = some z := by
  induction l with
  | nil => simp
  | cons w ws ih => simpa using ih

/-- Replacing the element right after a list l in l ++ x :: t. -/
theorem set_append_len {α : Type} (l : List α) (x a : α) (t : List α) :
    (l ++ x :: t).set l.length a = l ++ a :: t := by
  induction l with
  | nil => simp
  | cons y ys ih => simp [ih]

/-- Replacing the second element after a list l. -/
theorem set_append_len1 {α : Type} (l : List α) (x y a : α) (t : List α) :
    (l ++ x :: y :: t).set (l.length + 1) a = l ++ x :: a :: t := by
  induction l with
  | nil => simp
  | cons z zs ih => simp [ih]

/-- Replacing the third element after a list l. -/
theorem set_append_len2 {α : Type} (l : List α) (x y z a : α) (t : List α) :
    (l ++ x :: y :: z :: t).set (l.length + 2) a = l ++ x :: y :: a :: t := by
  induction l with
  | nil => simp
  | cons w ws ih => simp [ih]

/-- A value within int range is its own int conversion. -/
theorem toInt32_small (x : Int) (h0 : 0 ≤ x) (h1 : x < 2147483648) : toInt32 x = x := by
  unfold toInt32; omega

/-- Writing at the end of a file appends. -/
theorem writeAt_end (old data : List Byte) (off : Nat) (h : off = old.length) :
    writeAt old off data = old ++ data := by
  subst h
  simp [writeAt]

/-- One read of the copy loop on a healthy vnode: the bytes from the offset
on land at the front of the buffer, the offset moves by their number, the
lock is free again and the log has one more VOP_READ. -/
theorem meld_read_ok (file : Nat) (buffer : List Byte) (k : Kernel) (o : openfile) (n : vnode)
    (hf : k.files[file]? = some o) (hv : k.vnodes[o.of_vnode]? = some n)
    (he : n.vn_ioerr = 0) :
    meld_read file buffer k
      = .ok (((n.vn_data.drop o.of_offset).take 4)
              ++ buffer.drop ((n.vn_data.drop o.of_offset).take 4).length,
          { k with
            files := k.files.set file { o with
              of_offset := o.of_offset + ((n.vn_data.drop o.of_offset).take 4).length,
              of_offsetlock := false },
            log := Event.vop_read o.of_vnode o.of_offset
              ((n.vn_data.drop o.of_offset).take 4).length :: k.log }) := by
  have hlt := lt_of_getElem?_some hf
  simp [meld_read, lock_acquire, lock_release, updFile, hf, List.getElem?_set, hlt, uio_kinit,
    VOP_READ, hv, he]

/-- One write of the copy loop on a healthy vnode: the 4 bytes of the buffer
are written at the offset, the offset moves by 4, the lock is free again and
the log has one more VOP_WRITE. -/
theorem meld_write_ok (file : Nat) (buffer : List Byte) (k : Kernel) (o : openfile) (n : vnode)
    (hf : k.files[file]? = some o) (hv : k.vnodes[o.of_vnode]? = some n)
    (he : n.vn_ioerr = 0) (hb : buffer.length = 4) :
    meld_write file buffer k
      = .ok { k with
            vnodes := k.vnodes.set o.of_vnode
              { n with vn_data := writeAt n.vn_data o.of_offset buffer },
            files := k.files.set file { o with
              of_offset := o.of_offset + 4, of_offsetlock := false },
            log := Event.vop_write o.of_vnode o.of_offset 4 :: k.log } := by
  have hlt := lt_of_getElem?_some hf
  have h4 : buffer.take 4 = buffer := by
    rw [← hb]; exact List.take_length buffer
  simp [meld_write, lock_acquire, lock_release, updFile, hf, List.getElem?_set, hlt, uio_kinit,
    VOP_WRITE, hv, he, h4, hb]

/-- The read of source 1 in a round of the copy loop. -/
theorem meld_read1 (k0 : Kernel) (p3 : String) (v1 v2 : Nat) (ft : List (Option Nat))
    (a b d : Nat) (D : List Byte) (L : List Event) (r : Int) (n1 : vnode) (b1 : List Byte)
    (hv1 : k0.vnodes[v1]? = some n1) (he1 : n1.vn_ioerr = 0) :
    meld_read k0.files.length b1 (meldState k0 p3 v1 v2 ft a b d D L r)
      = .ok (((n1.vn_data.drop a).take 4) ++ b1.drop ((n1.vn_data.drop a).take 4).length,
          meldState k0 p3 v1 v2 ft (a + ((n1.vn_data.drop a).take 4).length) b d D
            (Event.vop_read v1 a ((n1.vn_data.drop a).take 4).length :: L) r) := by
  have hlt := lt_of_getElem?_some hv1
  rw [meld_read_ok k0.files.length b1 _ ⟨v1, O_RDWR, a, 1, false⟩ n1
    (by simp only [meldState]; exact getElem?_append_len _ _ _)
    (by simp only [meldState]; rw [List.getElem?_append_left hlt]; exact hv1) he1]
  simp only [meldState, set_append_len]

/-- The read of source 2 in a round of the copy loop. -/
theorem meld_read2 (k0 : Kernel) (p3 : String) (v1 v2 : Nat) (ft : List (Option Nat))
    (a b d : Nat) (D : List Byte) (L : List Event) (r : Int) (n2 : vnode) (b2 : List Byte)
    (hv2 : k0.vnodes[v2]? = some n2) (he2 : n2.vn_ioerr = 0) :
    meld_read (k0.files.length + 1) b2 (meldState k0 p3 v1 v2 ft a b d D L r)
      = .ok (((n2.vn_data.drop b).take 4) ++ b2.drop ((n2.vn_data.drop b).take 4).length,
          meldState k0 p3 v1 v2 ft a (b + ((n2.vn_data.drop b).take 4).length) d D
            (Event.vop_read v2 b ((n2.vn_data.drop b).take 4).length :: L) r) := by
  have hlt := lt_of_getElem?_some hv2
  rw [meld_read_ok (k0.files.length + 1) b2 _ ⟨v2, O_RDWR, b, 1, false⟩ n2
    (by simp only [meldState]; exact getElem?_append_len1 _ _ _ _)
    (by simp only [meldState]; rw [List.getElem?_append_left hlt]; exact hv2) he2]
  simp only [meldState, set_append_len1]

/-- A write to the destination in a round of the copy loop. -/
theorem meld_write3 (k0 : Kernel) (p3 : String) (v1 v2 : Nat) (ft : List (Option Nat))
    (a b d : Nat) (D : List Byte) (L : List Event) (r : Int) (buffer : List Byte)
    (hb : buffer.length = 4) :
    meld_write (k0.files.length + 2) buffer (meldState k0 p3 v1 v2 ft a b d D L r)
      = .ok (meldState k0 p3 v1 v2 ft a b (d + 4) (writeAt D d buffer)
            (Event.vop_write k0.vnodes.length d 4 :: L) r) := by
  rw [meld_write_ok (k0.files.length + 2) buffer _ ⟨k0.vnodes.length, O_WRONLY, d, 1, false⟩
    ⟨p3, D, 0⟩
    (by simp only [meldState]; exact getElem?_append_len2 _ _ _ _ _)
    (by simp only [meldState]; exact getElem?_append_len _ _ _) rfl hb]
  simp only [meldState, set_append_len2, set_append_len]


/-- The interleaving of n full chunks of each source has 8 n bytes. -/
theorem meldChunks_length (A B : List Byte) (j : Nat) (hA : 4 * j ≤ A.length)
    (hB : 4 * j ≤ B.length) : (meldChunks A B j).length = 8 * j := by
  induction j with
  | zero => simp [meldChunks]
  | succ n ih =>
    have := ih (by omega) (by omega)
    simp [meldChunks, chunk, this]
    omega

/-- A round of the copy loop adds four transfers to the log. -/
theorem transfers_step (L : List Event) (v1 v2 v3 a b c d e f g h : Nat) :
    transfers (Event.vop_write v3 a b :: Event.vop_write v3 c d :: Event.vop_read v2 e f
      :: Event.vop_read v1 g h :: L) = transfers L + 4 := by
  simp [transfers]

/-- Half an int is below 2^30. -/
theorem tdiv_two_lt (sz : Int) (h : sz < 2147483648) : Int.tdiv sz 2 < 1073741824 := by
  rcases lt_or_ge sz 0 with hneg | hpos
  · have h1 : Int.tdiv sz 2 = -(Int.tdiv (-sz) 2) := by
      rw [Int.neg_tdiv, neg_neg]
    rw [h1, Int.tdiv_eq_ediv (by omega) (by omega)]
    omega
  · rw [Int.tdiv_eq_ediv hpos (by omega)]
    omega

/-- The copy loop, from round j on, with m rounds to go: it ends in the state
after all rounds, the destination has 8 bytes a round, the log has four
transfers a round, and as long as both sources have full chunks left the
destination is their interleaving. -/
theorem meld_loop_run (k0 : Kernel) (p3 : String) (v1 v2 : Nat) (ft : List (Option Nat))
    (r : Int) (n1 n2 : vnode)
    (hv1 : k0.vnodes[v1]? = some n1) (he1 : n1.vn_ioerr = 0)
    (hv2 : k0.vnodes[v2]? = some n2) (he2 : n2.vn_ioerr = 0)
    (sz : Int) (hsz : sz < 2147483648) :
    ∀ (m j fuel a b : Nat) (D : List Byte) (L : List Event) (b1 b2 : List Byte),
      j + m = ((Int.tdiv sz 2).toNat + 3) / 4 → m ≤ fuel → D.length = 8 * j →
      b1.length = 4 → b2.length = 4 →
      (4 * j ≤ n1.vn_data.length → 4 * j ≤ n2.vn_data.length →
        a = 4 * j ∧ b = 4 * j ∧ D = meldChunks n1.vn_data n2.vn_data j) →
      ∃ (a1 c1 : Nat) (D1 : List Byte) (L1 : List Event),
        meld_loop sz k0.files.length (k0.files.length + 1) (k0.files.length + 2) fuel
            ((4 * j : Nat) : Int) b1 b2 (meldState k0 p3 v1 v2 ft a b (8 * j) D L r)
          = .ok (meldState k0 p3 v1 v2 ft a1 c1 (8 * (((Int.tdiv sz 2).toNat + 3) / 4)) D1 L1 r) ∧
        D1.length = 8 * (((Int.tdiv sz 2).toNat + 3) / 4) ∧
        transfers L1 = transfers L + 4 * m ∧
        (4 * (((Int.tdiv sz 2).toNat + 3) / 4) ≤ n1.vn_data.length →
          4 * (((Int.tdiv sz 2).toNat + 3) / 4) ≤ n2.vn_data.length →
          D1 = meldChunks n1.vn_data n2.vn_data (((Int.tdiv sz 2).toNat + 3) / 4)) := by
  have hlt := tdiv_two_lt sz hsz
  obtain ⟨half, hhalf⟩ : ∃ h, Int.tdiv sz 2 = h := ⟨_, rfl⟩
  rw [hhalf] at hlt
  simp only [hhalf]
  intro m
  induction m with
  | zero =>
    intro j fuel a b D L b1 b2 hj _ hD _ _ hP
    have hj1 : j = (half.toNat + 3) / 4 := by omega
    have hcond : ¬ (((4 * j : Nat) : Int) < half) := by omega
    subst hj1
    refine ⟨a, b, D, L, ?_, hD, ?_, ?_⟩
    · cases fuel <;> simp only [meld_loop, hhalf, if_neg hcond]
    · simp
    · intro h1 h2
      exact (hP h1 h2).2.2
  | succ m ih =>
    intro j fuel a b D L b1 b2 hj hfuel hD hb1 hb2 hP
    obtain ⟨fuel, rfl⟩ : ∃ f, fuel = f + 1 := ⟨fuel - 1, by omega⟩
    have hcond : ((4 * j : Nat) : Int) < half := by omega
    have hnext : toInt32 (((4 * j : Nat) : Int) + 4) = ((4 * (j + 1) : Nat) : Int) := by
      rw [toInt32_small _ (by omega) (by omega)]; omega
    have hg1 : ((n1.vn_data.drop a).take 4).length ≤ 4 := by simp
    have hg2 : ((n2.vn_data.drop b).take 4).length ≤ 4 := by simp
    have hb1n : (((n1.vn_data.drop a).take 4)
        ++ b1.drop ((n1.vn_data.drop a).take 4).length).length = 4 := by
      rw [List.length_append, List.length_drop]; omega
    have hb2n : (((n2.vn_data.drop b).take 4)
        ++ b2.drop ((n2.vn_data.drop b).take 4).length).length = 4 := by
      rw [List.length_append, List.length_drop]; omega
    have hDb : 8 * j + 4 = (D ++ (((n1.vn_data.drop a).take 4)
        ++ b1.drop ((n1.vn_data.drop a).take 4).length)).length := by
      rw [List.length_append, hD, hb1n]
    obtain ⟨a1, b1x, D1, L1, hrun, hlen, htr, hcont⟩ := ih (j + 1) fuel
      (a + ((n1.vn_data.drop a).take 4).length) (b + ((n2.vn_data.drop b).take 4).length)
      (writeAt (writeAt D (8 * j) (((n1.vn_data.drop a).take 4)
        ++ b1.drop ((n1.vn_data.drop a).take 4).length)) (8 * j + 4)
        (((n2.vn_data.drop b).take 4) ++ b2.drop ((n2.vn_data.drop b).take 4).length))
      (Event.vop_write k0.vnodes.length (8 * j + 4) 4 :: Event.vop_write k0.vnodes.length (8 * j) 4
        :: Event.vop_read v2 b ((n2.vn_data.drop b).take 4).length
        :: Event.vop_read v1 a ((n1.vn_data.drop a).take 4).length :: L)
      _ _ (by omega) (by omega)
      (by
        rw [writeAt_end _ _ _ hD.symm, writeAt_end _ _ _ hDb, List.length_append, ← hDb, hb2n]
        omega)
      hb1n hb2n
      (by
        intro h1 h2
        obtain ⟨ha, hb, hDj⟩ := hP (by omega) (by omega)
        subst ha hb
        have hl1 : ((n1.vn_data.drop (4 * j)).take 4).length = 4 := by
          rw [List.length_take, List.length_drop]; omega
        have hl2 : ((n2.vn_data.drop (4 * j)).take 4).length = 4 := by
          rw [List.length_take, List.length_drop]; omega
        refine ⟨by omega, by omega, ?_⟩
        rw [writeAt_end _ _ _ hD.symm, writeAt_end _ _ _ hDb]
        have hd1 : b1.drop 4 = [] := by
          rw [List.drop_eq_nil_iff]; omega
        have hd2 : b2.drop 4 = [] := by
          rw [List.drop_eq_nil_iff]; omega
        rw [hl1, hl2, hd1, hd2]
        simp [meldChunks, chunk, hDj])
    refine ⟨a1, b1x, D1, L1, ?_, hlen, ?_, hcont⟩
    · simp only [meld_loop, hhalf, if_pos hcond]
      rw [meld_read1 k0 p3 v1 v2 ft a b (8 * j) D L r n1 b1 hv1 he1]
      simp only
      rw [meld_read2 k0 p3 v1 v2 ft _ b (8 * j) D _ r n2 b2 hv2 he2]
      simp only
      rw [meld_write3 k0 p3 v1 v2 ft _ _ (8 * j) D _ r _ hb1n]
      simp only
      rw [meld_write3 k0 p3 v1 v2 ft _ _ (8 * j + 4) _ _ r _ hb2n]
      simp only
      rw [hnext]
      have h8 : 8 * j + 4 + 4 = 8 * (j + 1) := by omega
      rw [h8]
      exact hrun
    · rw [htr, transfers_step]; omega


/-- The slot a placement takes was empty, and the table changes there only. -/
theorem placeLowest_spec (ft : List (Option Nat)) (file i : Nat) (ft1 : List (Option Nat))
    (h : placeLowest ft file = some (i, ft1)) :
    ft[i]? = some none ∧ ft1 = ft.set i (some file) := by
  induction ft generalizing i ft1 with
  | nil => simp [placeLowest] at h
  | cons x xs ih =>
    cases x with
    | none =>
      simp [placeLowest] at h
      obtain ⟨rfl, rfl⟩ := h
      simp
    | some g =>
      simp only [placeLowest, Option.map_eq_some'] at h
      obtain ⟨⟨i1, r⟩, hr, heq⟩ := h
      simp only [Prod.mk.injEq] at heq
      obtain ⟨rfl, rfl⟩ := heq
      obtain ⟨h1, h2⟩ := ih i1 r hr
      simp [h1, h2]

/-- A placement that succeeds is the search for the lowest free slot. -/
theorem placeLowest_of_place {ft : List (Option Nat)} {file : Nat}
    {r : Nat × List (Option Nat)} (h : filetable_place ft file = .ok r) :
    placeLowest ft file = some r := by
  unfold filetable_place at h
  split at h
  · rename_i r1 heq
    cases h
    exact heq
  · cases h

/-- An int is below 2^31. -/
theorem toInt32_lt (x : Int) : toInt32 x < 2147483648 := by
  unfold toInt32; omega

/-- The copy-in of a mapped path within the bound succeeds. -/
theorem copyinstr_ok (p : String) (k : Kernel) (hp : p.length + 1 ≤ PATH_MAX) :
    copyinstr (some p) PATH_MAX k = (.ok p, { k with log := Event.copyinstr true :: k.log }) := by
  simp [copyinstr, hp]

/-- Opening an existing file O_RDWR gives a new object at offset 0. -/
theorem openfile_open_rdwr (p : String) (mode : Nat) (k : Kernel) (v : Nat)
    (h : vfs_lookup k.vnodes p = some v) :
    openfile_open p O_RDWR mode k
      = (.ok k.files.length,
          { k with files := k.files ++ [⟨v, O_RDWR, 0, 1, false⟩],
                   log := Event.openfile_open p O_RDWR :: k.log }) := by
  have e1 : Int.land O_RDWR O_ACCMODE = O_RDWR := by decide
  have e2 : flagSet O_RDWR O_CREAT = false := by decide
  have e3 : flagSet O_RDWR O_TRUNC = false := by decide
  have e4 : flagSet O_RDWR O_APPEND = false := by decide
  have e5 : (O_RDWR != O_RDONLY && O_RDWR != O_WRONLY && O_RDWR != O_RDWR) = false := by decide
  simp only [openfile_open, vfs_open, e1, e2, e3, e4, e5, h, Bool.false_and]
  simp

/-- Opening a missing file O_WRONLY | O_CREAT | O_EXCL creates it empty and
gives a new object at offset 0. -/
theorem openfile_open_excl (p : String) (mode : Nat) (k : Kernel)
    (h : vfs_lookup k.vnodes p = none) :
    openfile_open p (Int.lor (Int.lor O_WRONLY O_CREAT) O_EXCL) mode k
      = (.ok k.files.length,
          { k with vnodes := k.vnodes ++ [⟨p, [], 0⟩],
                   files := k.files ++ [⟨k.vnodes.length, O_WRONLY, 0, 1, false⟩],
                   log := Event.openfile_open p (Int.lor (Int.lor O_WRONLY O_CREAT) O_EXCL)
                     :: k.log }) := by
  have e1 : Int.land (Int.lor (Int.lor O_WRONLY O_CREAT) O_EXCL) O_ACCMODE = O_WRONLY := by
    decide
  have e2 : flagSet (Int.lor (Int.lor O_WRONLY O_CREAT) O_EXCL) O_CREAT = true := by decide
  have e4 : flagSet (Int.lor (Int.lor O_WRONLY O_CREAT) O_EXCL) O_APPEND = false := by decide
  have e5 : (O_WRONLY != O_RDONLY && O_WRONLY != O_WRONLY && O_WRONLY != O_RDWR) = false := by
    decide
  simp only [openfile_open, vfs_open, e1, e2, e4, e5, h]
  simp

/-- The first part of sys_meld when the copy-ins, the opens and the
placements succeed: the call is the copy, started in the state with the three
new objects. -/
theorem sys_meld_start (k : Kernel) (p1 p2 p3 : String) (v1 v2 : Nat)
    (fd1 fd2 fd3 : Nat) (ft1 ft2 ft3 : List (Option Nat))
    (hp1 : p1.length + 1 ≤ PATH_MAX) (hp2 : p2.length + 1 ≤ PATH_MAX)
    (hp3 : p3.length + 1 ≤ PATH_MAX)
    (hl1 : vfs_lookup k.vnodes p1 = some v1)
    (hl2 : vfs_lookup k.vnodes p2 = some v2)
    (hl3 : vfs_lookup k.vnodes p3 = none)
    (hpl1 : placeLowest k.ft k.files.length = some (fd1, ft1))
    (hpl2 : placeLowest ft1 (k.files.length + 1) = some (fd2, ft2))
    (hpl3 : placeLowest ft2 (k.files.length + 2) = some (fd3, ft3)) :
    sys_meld (some p1) (some p2) (some p3) k
      = meld_copy fd3 k.files.length (k.files.length + 1) (k.files.length + 2)
          (meldState k p3 v1 v2 ft3 0 0 0 []
            (Event.openfile_open p3 (Int.lor (Int.lor O_WRONLY O_CREAT) O_EXCL)
              :: Event.openfile_open p2 O_RDWR :: Event.openfile_open p1 O_RDWR
              :: Event.copyinstr true :: Event.copyinstr true :: Event.copyinstr true :: k.log)
            k.retval) := by
  unfold sys_meld
  rw [copyinstr_ok p1 _ hp1]
  simp only
  rw [copyinstr_ok p2 _ hp2]
  simp only
  rw [copyinstr_ok p3 _ hp3]
  simp only
  rw [openfile_open_rdwr p1 436 _ v1]
  swap
  · exact hl1
  simp only
  rw [openfile_open_rdwr p2 436 _ v2]
  swap
  · exact hl2
  simp only
  rw [openfile_open_excl p3 436 _]
  swap
  · exact hl3
  simp only [filetable_place, List.length_append, List.length_singleton, hpl1, hpl2, hpl3]
  simp [meldState]

/-- The end of sys_meld on the table in which fd3 is the descriptor of the
destination: the first swap empties slot fd3, the second finds it empty, and
the call returns ENOENT with the offset of the destination stored as an int
in the result cell. -/
theorem meld_finish_run (k : Kernel) (p3 : String) (v1 v2 : Nat) (ft2 : List (Option Nat))
    (fd3 a c d : Nat) (D : List Byte) (L : List Event) (r : Int)
    (hs3 : ft2[fd3]? = some none) :
    meld_finish fd3 (k.files.length + 2)
        (meldState k p3 v1 v2 (ft2.set fd3 (some (k.files.length + 2))) a c d D L r)
      = .ret ENOENT (meldState k p3 v1 v2 ft2 a c d D L (toInt32 d)) := by
  have hlt := lt_of_getElem?_some hs3
  have hok : filetable_okfd (ft2.set fd3 (some (k.files.length + 2))) (fd3 : Int) = true := by
    simp [filetable_okfd, hlt]
  have hf : (meldState k p3 v1 v2 (ft2.set fd3 (some (k.files.length + 2))) a c d D L r).files[
      k.files.length + 2]? = some ⟨k.vnodes.length, O_WRONLY, d, 1, false⟩ := by
    simp only [meldState]; exact getElem?_append_len2 _ _ _ _ _
  have hp1 : filetable_placeat (ft2.set fd3 (some (k.files.length + 2))) none (fd3 : Int)
      = (some (k.files.length + 2), ft2) := by
    simp [filetable_placeat, List.getElem?_set, hlt, set_same _ _ _ hs3]
  have hp2 : filetable_placeat ft2 none (fd3 : Int) = (none, ft2) := by
    simp [filetable_placeat, hs3, set_same _ _ _ hs3]
  unfold meld_finish
  rw [hf]
  simp only [meldState, hok, if_true, hp1, hp2]

/-- Half of an int, cut at zero. -/
theorem tdiv_two_toNat (z : Int) : (Int.tdiv z 2).toNat = z.toNat / 2 := by
  rcases lt_or_ge z 0 with hneg | hpos
  · have h1 : Int.tdiv z 2 = -(Int.tdiv (-z) 2) := by
      rw [Int.neg_tdiv, neg_neg]
    rw [h1, Int.tdiv_eq_ediv (by omega) (by omega)]
    omega
  · rw [Int.tdiv_eq_ediv hpos (by omega)]
    omega

/-- The number of rounds, without the division of C. -/
theorem meldRounds_eq (s1 s2 : Nat) :
    meldRounds s1 s2 = ((toInt32 (toInt32 s1 + s2)).toNat / 2 + 3) / 4 := by
  rw [meldRounds, tdiv_two_toNat]

/-- The copy loop makes no more rounds than the sources have bytes. -/
theorem meldRounds_le (s1 s2 : Nat) : meldRounds s1 s2 ≤ s1 + s2 := by
  rw [meldRounds_eq]
  unfold toInt32
  omega

/-- The number of rounds when the two sizes together fit an int. -/
theorem meldRounds_small (s1 s2 : Nat) (h : s1 + s2 < 2147483648) :
    meldRounds s1 s2 = ((s1 + s2) / 2 + 3) / 4 := by
  rw [meldRounds_eq]
  unfold toInt32
  omega

/-- The copy part of sys_meld once the two source objects are known. -/
theorem meld_copy_eq (fd : Int) (f1 f2 f3 : Nat) (k : Kernel) (o1 o2 : openfile)
    (h1 : k.files[f1]? = some o1) (h2 : k.files[f2]? = some o2) :
    meld_copy fd f1 f2 f3 k
      = match meld_loop (toInt32 (toInt32 (VOP_STAT o1.of_vnode k) + VOP_STAT o2.of_vnode k))
            f1 f2 f3 (VOP_STAT o1.of_vnode k + VOP_STAT o2.of_vnode k)
            0 (List.replicate 4 (Char.ofNat 0)) (List.replicate 4 (Char.ofNat 0)) k with
        | .error out => out
        | .ok k1 => meld_finish fd f3 k1 := by
  unfold meld_copy
  rw [h1, h2]

/-- What sys_meld does when the copy-ins, the opens, the placements and the
transfers succeed, for sources of any size: it returns ENOENT, the table is
the one with the two sources placed, the destination offset is 8 bytes a
round and its int conversion is in the result cell, the log has four
transfers a round, and if both sources have a full chunk for every round the
destination is their interleaving. -/
theorem sys_meld_run (k : Kernel) (p1 p2 p3 : String) (v1 v2 : Nat) (n1 n2 : vnode)
    (fd1 fd2 fd3 : Nat) (ft1 ft2 ft3 : List (Option Nat))
    (hp1 : p1.length + 1 ≤ PATH_MAX) (hp2 : p2.length + 1 ≤ PATH_MAX)
    (hp3 : p3.length + 1 ≤ PATH_MAX)
    (hl1 : vfs_lookup k.vnodes p1 = some v1) (hv1 : k.vnodes[v1]? = some n1)
    (he1 : n1.vn_ioerr = 0)
    (hl2 : vfs_lookup k.vnodes p2 = some v2) (hv2 : k.vnodes[v2]? = some n2)
    (he2 : n2.vn_ioerr = 0)
    (hl3 : vfs_lookup k.vnodes p3 = none)
    (hpl1 : placeLowest k.ft k.files.length = some (fd1, ft1))
    (hpl2 : placeLowest ft1 (k.files.length + 1) = some (fd2, ft2))
    (hpl3 : placeLowest ft2 (k.files.length + 2) = some (fd3, ft3)) :
    ∃ (a1 c1 : Nat) (D1 : List Byte) (L1 : List Event),
      sys_meld (some p1) (some p2) (some p3) k
        = .ret ENOENT (meldState k p3 v1 v2 ft2 a1 c1
            (8 * meldRounds n1.vn_data.length n2.vn_data.length) D1 L1
            (toInt32 ((8 * meldRounds n1.vn_data.length n2.vn_data.length : Nat) : Int))) ∧
      D1.length = 8 * meldRounds n1.vn_data.length n2.vn_data.length ∧
      transfers L1 = transfers k.log + 4 * meldRounds n1.vn_data.length n2.vn_data.length ∧
      (4 * meldRounds n1.vn_data.length n2.vn_data.length ≤ n1.vn_data.length →
        4 * meldRounds n1.vn_data.length n2.vn_data.length ≤ n2.vn_data.length →
        D1 = meldChunks n1.vn_data n2.vn_data
          (meldRounds n1.vn_data.length n2.vn_data.length)) := by
  have hlt1 := lt_of_getElem?_some hv1
  have hlt2 := lt_of_getElem?_some hv2
  obtain ⟨hs3, hft3⟩ := placeLowest_spec _ _ _ _ hpl3
  obtain ⟨L0, hL0⟩ : ∃ L, L = (Event.openfile_open p3 (Int.lor (Int.lor O_WRONLY O_CREAT) O_EXCL)
        :: Event.openfile_open p2 O_RDWR :: Event.openfile_open p1 O_RDWR
        :: Event.copyinstr true :: Event.copyinstr true :: Event.copyinstr true :: k.log) :=
    ⟨_, rfl⟩
  obtain ⟨sz, hsz⟩ : ∃ z, z = toInt32 (toInt32 n1.vn_data.length + n2.vn_data.length) :=
    ⟨_, rfl⟩
  have hN : meldRounds n1.vn_data.length n2.vn_data.length
      = ((Int.tdiv sz 2).toNat + 3) / 4 := by
    rw [hsz, meldRounds]
  rw [hN]
  have hszlt : sz < 2147483648 := by
    rw [hsz]; exact toInt32_lt _
  have hloop := meld_loop_run k p3 v1 v2 ft3 k.retval n1 n2 hv1 he1 hv2 he2 sz hszlt
      (((Int.tdiv sz 2).toNat + 3) / 4) 0 (n1.vn_data.length + n2.vn_data.length) 0 0 []
      L0 (List.replicate 4 (Char.ofNat 0)) (List.replicate 4 (Char.ofNat 0))
  have h1 : 0 + ((Int.tdiv sz 2).toNat + 3) / 4 = ((Int.tdiv sz 2).toNat + 3) / 4 :=
    Nat.zero_add _
  have h2 : ((Int.tdiv sz 2).toNat + 3) / 4 ≤ n1.vn_data.length + n2.vn_data.length := by
    rw [← hN]; exact meldRounds_le _ _
  have h3 : ([] : List Byte).length = 8 * 0 := rfl
  have h4 : (List.replicate 4 (Char.ofNat 0)).length = 4 := rfl
  obtain ⟨a1, c1, D1, L1, hrun, hlen, htr, hcont⟩ := hloop h1 h2 h3 h4 h4
      (by intro _ _; exact ⟨rfl, rfl, rfl⟩)
  refine ⟨a1, c1, D1, L1, ?_, hlen, ?_, hcont⟩
  · rw [sys_meld_start k p1 p2 p3 v1 v2 fd1 fd2 fd3 ft1 ft2 ft3 hp1 hp2 hp3 hl1 hl2 hl3
      hpl1 hpl2 hpl3, ← hL0]
    have hf1 : (meldState k p3 v1 v2 ft3 0 0 0 [] L0 k.retval).files[k.files.length]?
        = some ⟨v1, O_RDWR, 0, 1, false⟩ := by
      simp only [meldState]; exact getElem?_append_len _ _ _
    have hf2 : (meldState k p3 v1 v2 ft3 0 0 0 [] L0 k.retval).files[k.files.length + 1]?
        = some ⟨v2, O_RDWR, 0, 1, false⟩ := by
      simp only [meldState]; exact getElem?_append_len1 _ _ _ _
    have hst1 : VOP_STAT v1 (meldState k p3 v1 v2 ft3 0 0 0 [] L0 k.retval)
        = n1.vn_data.length := by
      simp only [VOP_STAT, meldState, List.getElem?_append_left hlt1, hv1]
    have hst2 : VOP_STAT v2 (meldState k p3 v1 v2 ft3 0 0 0 [] L0 k.retval)
        = n2.vn_data.length := by
      simp only [VOP_STAT, meldState, List.getElem?_append_left hlt2, hv2]
    rw [meld_copy_eq _ _ _ _ _ _ _ hf1 hf2, hst1, hst2, ← hsz]
    have hrun1 : meld_loop sz k.files.length (k.files.length + 1) (k.files.length + 2)
        (n1.vn_data.length + n2.vn_data.length) 0 (List.replicate 4 (Char.ofNat 0))
        (List.replicate 4 (Char.ofNat 0)) (meldState k p3 v1 v2 ft3 0 0 0 [] L0 k.retval)
        = .ok (meldState k p3 v1 v2 ft3 a1 c1 (8 * (((Int.tdiv sz 2).toNat + 3) / 4))
            D1 L1 k.retval) := hrun
    rw [hrun1]
    simp only
    rw [hft3]
    exact meld_finish_run k p3 v1 v2 ft2 fd3 a1 c1 (8 * (((Int.tdiv sz 2).toNat + 3) / 4))
      D1 L1 k.retval hs3
  · rw [htr, hL0]; simp [transfers]

/-! ## The copy loop ends -/

/-- A read of the copy loop is never cut short by the bound on the rounds. -/
theorem meld_read_finishes (file : Nat) (buffer : List Byte) (k : Kernel) :
    meld_read file buffer k ≠ .error .unfinished := by
  unfold meld_read
  simp only
  split
  · simp
  · split <;> simp

/-- A write of the copy loop is never cut short by the bound on the rounds. -/
theorem meld_write_finishes (file : Nat) (buffer : List Byte) (k : Kernel) :
    meld_write file buffer k ≠ .error .unfinished := by
  unfold meld_write
  simp only
  split
  · simp
  · split <;> simp

/-- The copy loop ends when it is granted a quarter of what the counter is
short of size / 2. -/
theorem meld_loop_finishes (size : Int) (f1 f2 f3 : Nat) (hsz : size < 2147483648) :
    ∀ (fuel : Nat) (counter : Int) (b1 b2 : List Byte) (k : Kernel),
      0 ≤ counter → Int.tdiv size 2 - counter ≤ 4 * (fuel : Int) →
      meld_loop size f1 f2 f3 fuel counter b1 b2 k ≠ .error .unfinished := by
  have hlt := tdiv_two_lt size hsz
  obtain ⟨half, hhalf⟩ : ∃ h, Int.tdiv size 2 = h := ⟨_, rfl⟩
  rw [hhalf] at hlt
  simp only [hhalf]
  intro fuel
  induction fuel with
  | zero =>
    intro counter b1 b2 k h0 h1
    have hc : ¬ counter < half := by omega
    simp only [meld_loop, hhalf, if_neg hc]
    simp
  | succ n ih =>
    intro counter b1 b2 k h0 h1
    simp only [meld_loop, hhalf]
    split
    · rename_i hc
      have hnext : toInt32 (counter + 4) = counter + 4 :=
        toInt32_small _ (by omega) (by omega)
      split
      · rename_i out heq
        intro h
        cases h
        exact meld_read_finishes _ _ _ heq
      · split
        · rename_i out heq
          intro h
          cases h
          exact meld_read_finishes _ _ _ heq
        · split
          · rename_i out heq
            intro h
            cases h
            exact meld_write_finishes _ _ _ heq
          · split
            · rename_i out heq
              intro h
              cases h
              exact meld_write_finishes _ _ _ heq
            · rw [hnext]
              exact ih _ _ _ _ (by omega) (by push_cast at h1 ⊢; omega)
    · simp

/-- The end of sys_meld has no loop. -/
theorem meld_finish_finishes (fd : Int) (f3 : Nat) (k : Kernel) :
    meld_finish fd f3 k ≠ .unfinished := by
  unfold meld_finish
  split
  · simp
  · simp only
    split
    · repeat' split
      all_goals simp
    · simp

/-- The copy part of sys_meld ends within the rounds it grants the loop. -/
theorem meld_copy_finishes (fd : Int) (f1 f2 f3 : Nat) (k : Kernel) :
    meld_copy fd f1 f2 f3 k ≠ .unfinished := by
  unfold meld_copy
  simp only
  split
  · rename_i o1 o2 _ _
    split
    · rename_i out heq
      intro h
      subst h
      refine meld_loop_finishes _ f1 f2 f3 (toInt32_lt _) _ 0 _ _ k (le_refl _) ?_ heq
      clear heq
      generalize VOP_STAT o1.of_vnode k = s1
      generalize VOP_STAT o2.of_vnode k = s2
      have h1 := Int.self_le_toNat (Int.tdiv (toInt32 (toInt32 (s1 : Int) + (s2 : Int))) 2)
      rw [tdiv_two_toNat] at h1
      have h2 : (toInt32 (toInt32 (s1 : Int) + (s2 : Int))).toNat ≤ s1 + s2 := by
        unfold toInt32; omega
      omega
    · exact meld_finish_finishes _ _ _
  · simp


/-- The copy loop of sys_meld always ends within the rounds granted to it:
no call of sys_meld is left unfinished. -/
theorem sys_meld_finishes (pn1 pn2 pn3 : userptr) (k : Kernel) :
    sys_meld pn1 pn2 pn3 k ≠ .unfinished := by
  unfold sys_meld
  repeat' split
  all_goals first
    | exact meld_copy_finishes _ _ _ _ _
    | simp

/-! ## The return code of meld -/

/-- A failed VOP_READ reports a non-zero code. -/
theorem VOP_READ_error_ne_zero (vn : Nat) (u : uio) (k k1 : Kernel) (r : Int)
    (h : VOP_READ vn u k = (.error r, k1)) : r ≠ 0 := by
  unfold VOP_READ at h
  split at h
  · cases h; decide
  · split at h
    · rename_i hne
      cases h
      exact hne
    · cases h

/-- A failed VOP_WRITE reports a non-zero code. -/
theorem VOP_WRITE_error_ne_zero (vn : Nat) (u : uio) (k k1 : Kernel) (r : Int)
    (h : VOP_WRITE vn u k = (.error r, k1)) : r ≠ 0 := by
  unfold VOP_WRITE at h
  split at h
  · cases h; decide
  · split at h
    · rename_i hne
      cases h
      exact hne
    · cases h

/-- A failed copy-in reports a non-zero code. -/
theorem copyinstr_error_ne_zero (p : userptr) (len : Nat) (k k1 : Kernel) (r : Int)
    (h : copyinstr p len k = (.error r, k1)) : r ≠ 0 := by
  unfold copyinstr at h
  split at h
  · cases h; decide
  · split at h
    · cases h
    · cases h; decide

/-- A failed placement reports a non-zero code. -/
theorem filetable_place_error_ne_zero (ft : List (Option Nat)) (file : Nat) (r : Int)
    (h : filetable_place ft file = .error r) : r ≠ 0 := by
  unfold filetable_place at h
  split at h
  · cases h
  · cases h; decide

/-- A read of the copy loop never leaves the call with code 0. -/
theorem meld_read_ne_success (file : Nat) (buffer : List Byte) (k k1 : Kernel) :
    meld_read file buffer k ≠ .error (.ret 0 k1) := by
  unfold meld_read
  simp only
  split
  · simp
  · split
    · rename_i r k2 heq
      intro h
      cases h
      exact VOP_READ_error_ne_zero _ _ _ _ _ heq rfl
    · simp

/-- A write of the copy loop never leaves the call with code 0. -/
theorem meld_write_ne_success (file : Nat) (buffer : List Byte) (k k1 : Kernel) :
    meld_write file buffer k ≠ .error (.ret 0 k1) := by
  unfold meld_write
  simp only
  split
  · simp
  · split
    · rename_i r k2 heq
      intro h
      cases h
      exact VOP_WRITE_error_ne_zero _ _ _ _ _ heq rfl
    · simp

/-- The copy loop never leaves the call with code 0. -/
theorem meld_loop_ne_success (size : Int) (f1 f2 f3 : Nat) (k1 : Kernel) :
    ∀ (fuel : Nat) (counter : Int) (b1 b2 : List Byte) (k : Kernel),
      meld_loop size f1 f2 f3 fuel counter b1 b2 k ≠ .error (.ret 0 k1) := by
  intro fuel
  induction fuel with
  | zero =>
    intro counter b1 b2 k
    simp only [meld_loop]
    split <;> simp
  | succ n ih =>
    intro counter b1 b2 k
    simp only [meld_loop]
    split
    · split
      · rename_i out heq
        intro h
        cases h
        exact meld_read_ne_success _ _ _ _ heq
      · split
        · rename_i out heq
          intro h
          cases h
          exact meld_read_ne_success _ _ _ _ heq
        · split
          · rename_i out heq
            intro h
            cases h
            exact meld_write_ne_success _ _ _ _ heq
          · split
            · rename_i out heq
              intro h
              cases h
              exact meld_write_ne_success _ _ _ _ heq
            · exact ih _ _ _ _
    · simp

/-- The end of sys_meld never returns 0: the second swap of the same slot
finds it empty. -/
theorem meld_finish_ne_success (fd : Int) (f3 : Nat) (k k1 : Kernel) :
    meld_finish fd f3 k ≠ .ret 0 k1 := by
  have h2 : ∀ ft : List (Option Nat), ((ft.set fd.toNat none)[fd.toNat]?).join = none := by
    intro ft
    rw [List.getElem?_set]
    simp only [if_true]
    split <;> rfl
  unfold meld_finish
  split
  · simp
  · simp only
    split
    · simp only [filetable_placeat, h2]
      split <;> simp [ENOENT]
    · simp

/-- The copy part of sys_meld never returns 0. -/
theorem meld_copy_ne_success (fd : Int) (f1 f2 f3 : Nat) (k k1 : Kernel) :
    meld_copy fd f1 f2 f3 k ≠ .ret 0 k1 := by
  unfold meld_copy
  simp only
  split
  · split
    · rename_i out heq
      intro h
      subst h
      exact meld_loop_ne_success _ _ _ _ _ _ _ _ _ _ heq
    · exact meld_finish_ne_success _ _ _ _
  · simp

/-- The call sys_meld never returns 0. -/
theorem sys_meld_ne_success (pn1 pn2 pn3 : userptr) (k k1 : Kernel) :
    sys_meld pn1 pn2 pn3 k ≠ .ret 0 k1 := by
  unfold sys_meld
  split
  · rename_i r k2 heq
    intro h
    cases h
    exact copyinstr_error_ne_zero _ _ _ _ _ heq rfl
  · split
    · rename_i r k2 heq
      intro h
      cases h
      exact copyinstr_error_ne_zero _ _ _ _ _ heq rfl
    · split
      · rename_i r k2 heq
        intro h
        cases h
        exact copyinstr_error_ne_zero _ _ _ _ _ heq rfl
      · split
        · simp [ENOENT]
        · split
          · simp [ENOENT]
          · split
            · simp [EEXIST]
            · split
              · rename_i r heq
                intro h
                cases h
                exact filetable_place_error_ne_zero _ _ _ heq rfl
              · split
                · rename_i r heq
                  intro h
                  cases h
                  exact filetable_place_error_ne_zero _ _ _ heq rfl
                · split
                  · rename_i r heq
                    intro h
                    cases h
                    exact filetable_place_error_ne_zero _ _ _ heq rfl
                  · exact meld_copy_ne_success _ _ _ _ _ _

/-! ## Read and write -/

/-- A returning sys_read leaves in the result cell what it held before. -/
theorem sys_read_retval (fd : Int) (buf size : Nat) (k : Kernel) (code : Int) (k1 : Kernel)
    (h : sys_read fd buf size k = .ret code k1) : k1.retval = k.retval := by
  have hg := filetable_get_retval fd k
  unfold sys_read at h
  split at h
  · rename_i heq
    rw [heq] at hg
    cases h
    exact hg
  · rename_i openFile ka heq
    rw [heq] at hg
    change ka.retval = k.retval at hg
    simp only at h
    split at h
    · cases h
    · split at h
      · cases h
        simp [lock_release, lock_acquire, updFile_retval] at hg ⊢
        exact hg
      · rename_i o _ _
        have hv := VOP_READ_retval o.of_vnode
          (uio_kinit (List.replicate size (Char.ofNat 0)) size o.of_offset)
          (lock_acquire openFile ka)
        split at h
        · rename_i heq2
          rw [heq2] at hv
          cases h
          simp [lock_acquire, updFile_retval] at hv
          omega
        · rename_i heq2
          rw [heq2] at hv
          cases h
          simp [filetable_put, lock_release, lock_acquire, updFile_retval] at hv ⊢
          omega

/-- A returning sys_write leaves in the result cell what it held before. -/
theorem sys_write_retval (fd : Int) (buf : Nat → Byte) (size : Nat) (k : Kernel) (code : Int)
    (k1 : Kernel) (h : sys_write fd buf size k = .ret code k1) : k1.retval = k.retval := by
  have hg := filetable_get_retval fd k
  unfold sys_write at h
  split at h
  · rename_i heq
    rw [heq] at hg
    cases h
    exact hg
  · rename_i openFile ka heq
    rw [heq] at hg
    change ka.retval = k.retval at hg
    simp only at h
    split at h
    · cases h
    · split at h
      · cases h
        simp [lock_release, lock_acquire, updFile_retval] at hg ⊢
        exact hg
      · rename_i o _ _
        have hv := VOP_WRITE_retval o.of_vnode
          (uio_kinit ((List.range size).map buf) size o.of_offset)
          (lock_acquire openFile ka)
        split at h
        · rename_i heq2
          rw [heq2] at hv
          cases h
          simp [lock_acquire, updFile_retval] at hv
          omega
        · rename_i heq2
          rw [heq2] at hv
          cases h
          simp [filetable_put, lock_release, lock_acquire, updFile_retval] at hv ⊢
          omega

/-- C2: sys_read and sys_write never store anything through retval: whatever
the call does, the result cell holds afterwards what it held before.  On the
example process a read of 4 bytes through descriptor 0 and a write of 4 bytes
through descriptor 1 both transfer 4 bytes (the offset goes from 0 to 4) and
return 0 while the result cell stays 0. -/
theorem transfer_count_not_reported :
    (∀ (fd : Int) (buf size : Nat) (k : Kernel),
      resultCell (sys_read fd buf size k) k.retval = k.retval) ∧
    (∀ (fd : Int) (buf : Nat → Byte) (size : Nat) (k : Kernel),
      resultCell (sys_write fd buf size k) k.retval = k.retval) ∧
    sys_read 0 0 4 exampleKernel = .ret 0 { exampleKernel with
      files := [⟨0, O_RDONLY, 4, 1, false⟩, ⟨0, O_WRONLY, 0, 1, false⟩, ⟨1, O_RDWR, 0, 1, false⟩],
      ft_gets := 1, ft_puts := 1, retval := 0, log := [Event.vop_read 0 0 4] } ∧
    sys_write 1 (fun _ => 'x') 4 exampleKernel = .ret 0 { exampleKernel with
      vnodes := [⟨"a", "xxxxBBBB".toList, 0⟩, ⟨"tty", [], EIO⟩],
      files := [⟨0, O_RDONLY, 0, 1, false⟩, ⟨0, O_WRONLY, 4, 1, false⟩, ⟨1, O_RDWR, 0, 1, false⟩],
      ft_gets := 1, ft_puts := 1, retval := 0, log := [Event.vop_write 0 0 4] } := by
  refine ⟨?_, ?_, by decide, by decide⟩
  · intro fd buf size k
    cases h : sys_read fd buf size k with
    | ret code k1 => exact sys_read_retval fd buf size k code k1 h
    | panic => rfl
    | badptr => rfl
    | unfinished => rfl
  · intro fd buf size k
    cases h : sys_write fd buf size k with
    | ret code k1 => exact sys_write_retval fd buf size k code k1 h
    | panic => rfl
    | badptr => rfl
    | unfinished => rfl

/-- C7: sys_read and sys_write leak on two of their exits.  On the example
process, the permission-denied exit (read through the write-only descriptor
1, write through the read-only descriptor 0) releases the lock but returns
after one filetable_get and no filetable_put; the exit on a failed transfer
(descriptor 2, whose device answers EIO) returns with the offset lock of the
object still held and, again, one filetable_get and no filetable_put. -/
theorem read_write_leak_lock_and_pin :
    sys_read 1 0 4 exampleKernel = .ret EACCES { exampleKernel with ft_gets := 1, ft_puts := 0 } ∧
    sys_write 0 (fun _ => 'x') 4 exampleKernel
      = .ret EACCES { exampleKernel with ft_gets := 1, ft_puts := 0 } ∧
    sys_read 2 0 4 exampleKernel = .ret EIO { exampleKernel with
      files := [⟨0, O_RDONLY, 0, 1, false⟩, ⟨0, O_WRONLY, 0, 1, false⟩, ⟨1, O_RDWR, 0, 1, true⟩],
      ft_gets := 1, ft_puts := 0 } ∧
    sys_write 2 (fun _ => 'x') 4 exampleKernel = .ret EIO { exampleKernel with
      files := [⟨0, O_RDONLY, 0, 1, false⟩, ⟨0, O_WRONLY, 0, 1, false⟩, ⟨1, O_RDWR, 0, 1, true⟩],
      ft_gets := 1, ft_puts := 0 } := by
  refine ⟨by decide, by decide, by decide, by decide⟩

/-! ## Open -/

/-- C4: sys_open returns EINVAL exactly when the flags equal allflags, and
then it leaves the state as it was.  With flags = O_ACCMODE, both access-mode
bits set, it goes on to the path copy-in: with an unmapped path address it
returns EFAULT after the copy-in, with the path of the file a it performs the
copy-in, calls openfile_open and returns EFAULT, and the same with
O_ACCMODE | O_CREAT on a new name. -/
theorem open_bad_accmode_not_rejected_first :
    (∀ (upath : userptr) (flags : Int) (mode : Nat) (k : Kernel),
      (∃ k1, sys_open upath flags mode k = .ret EINVAL k1) ↔ flags = allflags) ∧
    (∀ (upath : userptr) (mode : Nat) (k : Kernel),
      sys_open upath allflags mode k = .ret EINVAL k) ∧
    sys_open none O_ACCMODE 0 exampleKernel
      = .ret EFAULT { exampleKernel with log := [Event.copyinstr false] } ∧
    sys_open (some "a") O_ACCMODE 0 exampleKernel
      = .ret EFAULT { exampleKernel with
          log := [Event.openfile_open "a" 3, Event.copyinstr true] } ∧
    sys_open (some "new") (Int.lor O_ACCMODE O_CREAT) 0 exampleKernel
      = .ret EFAULT { exampleKernel with
          log := [Event.openfile_open "new" 7, Event.copyinstr true] } := by
  refine ⟨?_, ?_, by decide, by decide, by decide⟩
  · intro upath flags mode k
    constructor
    · rintro ⟨k1, h⟩
      by_contra hne
      unfold sys_open at h
      rw [if_neg hne] at h
      split at h
      · simp [EFAULT, EINVAL] at h
      · split at h
        · simp [EFAULT, EINVAL] at h
        · split at h
          · simp [EMFILE, EINVAL] at h
          · simp [EINVAL] at h
    · intro h
      exact ⟨k, by simp [sys_open, h]⟩
  · intro upath mode k
    simp [sys_open]

/-- C6: on the process whose table is full, sys_open of the existing file a
returns EMFILE and leaves the table as it was, but the object openfile_open
created stays on the heap with its reference count 1 and the log has no
openfile_decref: the reference is leaked. -/
theorem open_full_table_leaks_object :
    sys_open (some "a") O_RDONLY 0 fullKernel = .ret EMFILE { fullKernel with
      files := [⟨0, O_RDONLY, 0, 1, false⟩, ⟨0, O_RDONLY, 0, 1, false⟩],
      log := [Event.openfile_open "a" 0, Event.copyinstr true] } := by
  decide

/-! ## Close -/

/-- C5: for a descriptor number in range, sys_close returns ENOENT exactly
when the slot is empty, and then the state is unchanged; when the slot holds
an object with at least one reference, sys_close returns 0, the slot is
empty and every other slot as before, the reference count of the object is
one less and the log has one more entry, its openfile_decref; after that the
descriptor fails the validity check and a second sys_close returns ENOENT. -/
theorem close_contract (k : Kernel) (fd : Int) (hfd : filetable_okfd k.ft fd = true) :
    ((∃ k1, sys_close fd k = .ret ENOENT k1) ↔ k.ft[fd.toNat]? = some none) ∧
    (k.ft[fd.toNat]? = some none → sys_close fd k = .ret ENOENT k) ∧
    (∀ (file : Nat) (o : openfile), k.ft[fd.toNat]? = some (some file) →
      k.files[file]? = some o → 0 < o.of_refcount →
      ∃ k1, sys_close fd k = .ret 0 k1 ∧
        k1 = { k with ft := k.ft.set fd.toNat none,
                      files := k.files.set file { o with of_refcount := o.of_refcount - 1 },
                      log := Event.openfile_decref file :: k.log } ∧
        k1.ft[fd.toNat]? = some none ∧
        (∀ i, i ≠ fd.toNat → k1.ft[i]? = k.ft[i]?) ∧
        filetable_isvalid k1.ft fd = false ∧
        sys_close fd k1 = .ret ENOENT k1) := by
  have hlt := okfd_lt hfd
  have hempty : k.ft[fd.toNat]? = some none → sys_close fd k = .ret ENOENT k := by
    intro h
    simp [sys_close, hfd, filetable_placeat, h, set_same _ _ _ h]
  refine ⟨⟨?_, fun h => ⟨k, hempty h⟩⟩, hempty, ?_⟩
  · rintro ⟨k1, h⟩
    rcases hs : k.ft[fd.toNat]? with _ | slot
    · rw [List.getElem?_eq_none_iff] at hs; omega
    · rcases slot with _ | file
      · rfl
      · simp [sys_close, hfd, filetable_placeat, hs] at h
        split at h <;> simp [ENOENT] at h
  · intro file o hslot hobj href
    have hne : o.of_refcount ≠ 0 := by omega
    refine ⟨_, ?_, rfl, ?_, ?_, ?_, ?_⟩
    · simp [sys_close, hfd, filetable_placeat, hslot, openfile_decref, hobj, hne]
    · simp [List.getElem?_set, hlt]
    · intro i hi
      simp [List.getElem?_set_ne (Ne.symm hi)]
    · simp [filetable_isvalid, List.getElem?_set, hlt]
    · have hfd1 : filetable_okfd (k.ft.set fd.toNat none) fd = true := by
        simpa [filetable_okfd] using hfd
      simp [sys_close, hfd1, filetable_placeat, List.getElem?_set, hlt]

/-- Witness of C5: on the example process descriptor 3 is free and
descriptor 0 is open. -/
theorem close_contract_witness :
    sys_close 3 exampleKernel = .ret ENOENT exampleKernel ∧
    ∃ k1, sys_close 0 exampleKernel = .ret 0 k1 ∧
      k1 = { exampleKernel with
        ft := [none, some 1, some 2, none],
        files := [⟨0, O_RDONLY, 0, 0, false⟩, ⟨0, O_WRONLY, 0, 1, false⟩, ⟨1, O_RDWR, 0, 1, false⟩],
        log := [Event.openfile_decref 0] } ∧
      k1.ft[(0 : Int).toNat]? = some none ∧
      (∀ i, i ≠ (0 : Int).toNat → k1.ft[i]? = exampleKernel.ft[i]?) ∧
      filetable_isvalid k1.ft 0 = false ∧
      sys_close 0 k1 = .ret ENOENT k1 :=
  ⟨(close_contract exampleKernel 3 (by decide)).2.1 (by decide),
   (close_contract exampleKernel 0 (by decide)).2.2 0 ⟨0, O_RDONLY, 0, 1, false⟩
      (by decide) (by decide) (by decide)⟩

/-- C9: sys_close asserts the descriptor number: for every negative number
and every number at or beyond the size of the table the KASSERT of line 192
fails and the kernel panics, whatever the state. -/
theorem close_panics_out_of_range (k : Kernel) (n : Nat) :
    sys_close (-(n + 1 : Nat)) k = .panic ∧
    sys_close ((k.ft.length + n : Nat) : Int) k = .panic := by
  constructor
  · have h : filetable_okfd k.ft (-(n + 1 : Nat)) = false := by
      simp [filetable_okfd]; omega
    unfold sys_close
    rw [h]
    simp
  · have h : filetable_okfd k.ft ((k.ft.length + n : Nat) : Int) = false := by
      simp [filetable_okfd]
    unfold sys_close
    rw [h]
    simp

/-! ## Meld -/

/-- C8: sys_meld never returns 0, whatever its arguments and the state.  On
the meld scenario of the spec, where every copy-in, open, placement and
transfer succeeds, it returns ENOENT: the end swaps the descriptor of the
destination with NULL three times, so the second swap finds NULL.  Only the
destination slot 2 is empty afterwards, the sources still sit in slots 0 and
1, the three objects keep their reference count 1 and the log has no
openfile_decref. -/
theorem meld_completion_returns_ENOENT :
    (∀ (pn1 pn2 pn3 : userptr) (k k1 : Kernel), sys_meld pn1 pn2 pn3 k ≠ .ret 0 k1) ∧
    sys_meld (some "a") (some "b") (some "c") meldKernel = .ret ENOENT
      { vnodes := [⟨"a", "AAAABBBB".toList, 0⟩, ⟨"b", "11112222".toList, 0⟩,
                   ⟨"c", "AAAA1111BBBB2222".toList, 0⟩],
        files := [⟨0, O_RDWR, 8, 1, false⟩, ⟨1, O_RDWR, 8, 1, false⟩, ⟨2, O_WRONLY, 16, 1, false⟩],
        ft := [some 0, some 1, none, none],
        ft_gets := 0, ft_puts := 0, retval := 16,
        log := [Event.vop_write 2 12 4, Event.vop_write 2 8 4, Event.vop_read 1 4 4,
                Event.vop_read 0 4 4, Event.vop_write 2 4 4, Event.vop_write 2 0 4,
                Event.vop_read 1 0 4, Event.vop_read 0 0 4, Event.openfile_open "c" 13,
                Event.openfile_open "b" 2, Event.openfile_open "a" 2, Event.copyinstr true,
                Event.copyinstr true, Event.copyinstr true] } :=
  ⟨sys_meld_ne_success, by decide⟩

/-- C10, amended: when the three paths are copied in, the two sources exist
with s1 and s2 bytes and answer their transfers, the destination does not
exist, the three placements succeed and 8 times the number of rounds
n = ceil(floor((s1 + s2) / 2) / 4) is below 2^31, sys_meld returns after n
rounds of the copy loop (4 n transfers), the destination offset is 8 n, the
result cell holds 8 n, and 8 n = s1 + s2 exactly when s1 + s2 is a multiple
of 8. -/
theorem meld_rounds (k : Kernel) (p1 p2 p3 : String) (v1 v2 : Nat) (n1 n2 : vnode)
    (fd1 fd2 fd3 : Nat) (ft1 ft2 ft3 : List (Option Nat))
    (hp1 : p1.length + 1 ≤ PATH_MAX) (hp2 : p2.length + 1 ≤ PATH_MAX)
    (hp3 : p3.length + 1 ≤ PATH_MAX)
    (hl1 : vfs_lookup k.vnodes p1 = some v1) (hv1 : k.vnodes[v1]? = some n1)
    (he1 : n1.vn_ioerr = 0)
    (hl2 : vfs_lookup k.vnodes p2 = some v2) (hv2 : k.vnodes[v2]? = some n2)
    (he2 : n2.vn_ioerr = 0)
    (hl3 : vfs_lookup k.vnodes p3 = none)
    (hpl1 : filetable_place k.ft k.files.length = .ok (fd1, ft1))
    (hpl2 : filetable_place ft1 (k.files.length + 1) = .ok (fd2, ft2))
    (hpl3 : filetable_place ft2 (k.files.length + 2) = .ok (fd3, ft3))
    (hint : 8 * (((n1.vn_data.length + n2.vn_data.length) / 2 + 3) / 4) < 2147483648) :
    ∃ (code : Int) (k1 : Kernel),
      sys_meld (some p1) (some p2) (some p3) k = .ret code k1 ∧
      transfers k1.log
        = transfers k.log + 4 * (((n1.vn_data.length + n2.vn_data.length) / 2 + 3) / 4) ∧
      (k1.files[k.files.length + 2]?).map (fun o => o.of_offset)
        = some (8 * (((n1.vn_data.length + n2.vn_data.length) / 2 + 3) / 4)) ∧
      k1.retval
        = ((8 * (((n1.vn_data.length + n2.vn_data.length) / 2 + 3) / 4) : Nat) : Int) ∧
      (8 * (((n1.vn_data.length + n2.vn_data.length) / 2 + 3) / 4)
          = n1.vn_data.length + n2.vn_data.length
        ↔ 8 ∣ n1.vn_data.length + n2.vn_data.length) := by
  obtain ⟨a1, c1, D1, L1, hrun, _, htr, _⟩ :=
    sys_meld_run k p1 p2 p3 v1 v2 n1 n2 fd1 fd2 fd3 ft1 ft2 ft3 hp1 hp2 hp3 hl1 hv1 he1
      hl2 hv2 he2 hl3 (placeLowest_of_place hpl1) (placeLowest_of_place hpl2)
      (placeLowest_of_place hpl3)
  have hN : meldRounds n1.vn_data.length n2.vn_data.length
      = ((n1.vn_data.length + n2.vn_data.length) / 2 + 3) / 4 := by
    rw [meldRounds_small _ _ (by clear hrun htr; omega)]
  rw [hN] at hrun htr
  refine ⟨ENOENT, _, hrun, htr, ?_, ?_, ?_⟩
  · simp only [meldState]
    rw [getElem?_append_len2]
    rfl
  · simp only [meldState]
    rw [toInt32_small _ (by clear hrun htr; omega) (by clear hrun htr; omega)]
  · clear hrun htr
    omega

/-- Witness of C10: sources of 6 and 6 bytes give 2 rounds (8 transfers) and
the reported offset 16, not 12. -/
theorem meld_rounds_witness :
    ∃ (code : Int) (k1 : Kernel),
      sys_meld (some "a") (some "b") (some "c") meldKernel6 = .ret code k1 ∧
      transfers k1.log = 8 ∧
      (k1.files[2]?).map (fun o => o.of_offset) = some 16 ∧
      k1.retval = 16 ∧
      ((16 : Nat) = 6 + 6 ↔ 8 ∣ 6 + 6) :=
  meld_rounds meldKernel6 "a" "b" "c" 0 1 ⟨"a", "AAAABB".toList, 0⟩
    ⟨"b", "111122".toList, 0⟩ 0 1 2 [some 0, none, none, none] [some 0, some 1, none, none]
    [some 0, some 1, some 2, none] (by decide) (by decide) (by decide) (by decide) (by decide)
    (by decide) (by decide) (by decide) (by decide) (by decide) rfl rfl rfl (by decide)

/-- C10, counterexample: with sources of 1073741824 and 1073741823 bytes the
sum 2147483647 is within int range, the loop makes 268435456 rounds and the
destination offset is 8 * 268435456 = 2147483648, which does not fit the int
result: the result cell holds -2147483648. -/
theorem meld_reported_offset_overflows :
    ∃ k1, sys_meld (some "a") (some "b") (some "c") largeKernel2 = .ret ENOENT k1 ∧
      transfers k1.log = 4 * 268435456 ∧
      (k1.files[2]?).map (fun o => o.of_offset) = some (8 * 268435456) ∧
      k1.retval = -2147483648 ∧
      k1.retval ≠ ((8 * 268435456 : Nat) : Int) := by
  obtain ⟨a1, c1, D1, L1, hrun, _, htr, _⟩ :=
    sys_meld_run largeKernel2 "a" "b" "c" 0 1 ⟨"a", List.replicate 1073741824 'A', 0⟩
      ⟨"b", List.replicate 1073741823 '1', 0⟩ 0 1 2 [some 0, none, none, none]
      [some 0, some 1, none, none] [some 0, some 1, some 2, none]
      (by decide) (by decide) (by decide) rfl rfl rfl rfl rfl rfl rfl rfl rfl rfl
  have hN : meldRounds 1073741824 1073741823 = 268435456 := by decide
  have e1 : (vnode.mk "a" (List.replicate 1073741824 'A') 0).vn_data.length = 1073741824 :=
    List.length_replicate _ _
  have e2 : (vnode.mk "b" (List.replicate 1073741823 '1') 0).vn_data.length = 1073741823 :=
    List.length_replicate _ _
  rw [e1, e2, hN] at hrun htr
  have h0 : toInt32 ((8 * 268435456 : Nat) : Int) = -2147483648 := by decide
  rw [h0] at hrun
  have hne : (-2147483648 : Int) ≠ ((8 * 268435456 : Nat) : Int) := by decide
  refine ⟨_, hrun, ?_, rfl, rfl, hne⟩
  show transfers L1 = 4 * 268435456
  rw [htr]
  rfl

end OSLight
